import Mathlib

/-
Verification of the MyPlaceIQ synchronization engine against its
natural-language specification.  The Python sources under
custom_components/myplaceiq are shallowly embedded below: JSON objects
become association lists from strings to a small JSON value type,
stateful instance fields become explicit state arguments and results,
and the asynchronous transport loop becomes a pure function over an
oracle describing the outcome of each connection attempt.
-/

namespace MyPlaceIQ

/-- JSON scalar values as they occur in the snapshot bodies handled by the
integration: null, booleans, integers and strings. -/
inductive JVal where
  | jnull : JVal
  | jbool (b : Bool) : JVal
  | jint (n : Int) : JVal
  | jstr (s : String) : JVal
  deriving DecidableEq

/-- Python truthiness of a JSON value, used by bare `if x:` tests in the
source. -/
def truthy : JVal → Bool
  | .jnull => false
  | .jbool b => b
  | .jint n => decide (n ≠ 0)
  | .jstr s => decide (s ≠ "")

/-- A Python dict with string keys, embedded as an association list in
insertion order (first binding of a key wins on lookup). -/
abbrev Dict (α : Type) := List (String × α)

/-- Embedding of Python `d.get(k)`: the value at key `k`, if present. -/
def Dict.get {α : Type} : Dict α → String → Option α
  | [], _ => none
  | (k, v) :: rest, key => if k = key then some v else Dict.get rest key

/-- Embedding of Python `d[k] = v`: replace the binding of `k` in place, or
append it when absent. -/
def Dict.set {α : Type} : Dict α → String → α → Dict α
  | [], key, v => [(key, v)]
  | (k, w) :: rest, key, v =>
      if k = key then (k, v) :: rest else (k, w) :: Dict.set rest key v

theorem Dict.get_set_self {α : Type} (o : Dict α) (k : String) (v : α) :
    Dict.get (Dict.set o k v) k = some v := by
  induction o with
  | nil => simp [Dict.set, Dict.get]
  | cons hd tl ih =>
      obtain ⟨k0, w⟩ := hd
      by_cases h : k0 = k
      · simp [Dict.set, Dict.get, h]
      · simp [Dict.set, Dict.get, h, ih]

theorem Dict.get_set_of_ne {α : Type} (o : Dict α) (k k' : String) (v : α)
    (h : k ≠ k') : Dict.get (Dict.set o k v) k' = Dict.get o k' := by
  induction o with
  | nil => simp [Dict.set, Dict.get, h]
  | cons hd tl ih =>
      obtain ⟨k0, w⟩ := hd
      by_cases h0 : k0 = k
      · subst h0
        simp [Dict.set, Dict.get, h]
      · simp [Dict.set, Dict.get, h0, ih]

/-- A JSON entity record (one aircon or one zone) as a Python dict of JSON
values. -/
abbrev Entity := Dict JVal

/-- The deserialized reply body: the `aircons` and `zones` mappings.  A
missing mapping is represented by the empty dict, which the source treats
identically (every access goes through `.get` with a falsy or empty
default). -/
structure Body where
  aircons : Dict Entity
  zones : Dict Entity
  deriving DecidableEq

/- ===================== Command transport (myplaceiq.py) ================ -/

/-- Outcome of one step of a connection attempt: either a value or one of
the retryable errors (aiohttp.ClientError, aiohttp.WSMessageTypeError,
asyncio.TimeoutError), abstracted as an error type. -/
inductive AttemptOutcome (α ε : Type) where
  | ok (r : α) : AttemptOutcome α ε
  | err (e : ε) : AttemptOutcome α ε
  deriving DecidableEq

/-- What one connection attempt of `send_command` does, as observed by the
code: either the connect/send phase raises a retryable error, or the
message is sent and `recv` describes what `receive_json` would produce if
awaited. -/
inductive AttemptEvent (ρ ε : Type) where
  | connectFail (e : ε) : AttemptEvent ρ ε
  | sent (recv : AttemptOutcome ρ ε) : AttemptEvent ρ ε
  deriving DecidableEq

/-- Value returned by a successful `send_command` call: the ack dict
`{"status": "sent"}` when no reply is awaited, or the received reply. -/
inductive CmdReturn (ρ : Type) where
  | ack : CmdReturn ρ
  | reply (r : ρ) : CmdReturn ρ
  deriving DecidableEq

/-- Result of one attempt of the body of the retry loop in `send_command`
(myplaceiq.py lines 29-43), given the `await_response` flag: a connect
failure raises; after a successful send, the ack is returned immediately
when no reply is awaited, otherwise the receive outcome decides. -/
def attempt_outcome {ρ ε : Type} (awaitResponse : Bool) :
    AttemptEvent ρ ε → AttemptOutcome (CmdReturn ρ) ε
  | .connectFail e => .err e
  | .sent recv =>
      if awaitResponse then
        match recv with
        | .ok r => .ok (.reply r)
        | .err e => .err e
      else .ok .ack

/-- Final observable result of `send_command`: a returned value, a raised
`HomeAssistantError` carrying the last underlying cause, or the dead code
path after the loop (line 61).  `sleeps` records the backoff delays in
seconds performed before the result, in order. -/
inductive SendResult (α ε : Type) where
  | done (r : α) (sleeps : List Nat) : SendResult α ε
  | raised (e : ε) (sleeps : List Nat) : SendResult α ε
  | exhausted (sleeps : List Nat) : SendResult α ε
  deriving DecidableEq

/-- The retry loop of `send_command` (myplaceiq.py lines 26-50) over the
list of remaining attempt numbers: attempt `i` consults the oracle; on
success its value is returned; on a retryable error the loop sleeps 1
second and continues when `i < maxRetries`, and raises the error after the
final attempt. -/
def send_command_go {α ε : Type} (o : Nat → AttemptOutcome α ε)
    (maxRetries : Nat) : List Nat → List Nat → SendResult α ε
  | [], sleeps => .exhausted sleeps
  | attempt :: rest, sleeps =>
      match o attempt with
      | .ok r => .done r sleeps
      | .err e =>
          if attempt < maxRetries then
            send_command_go o maxRetries rest (sleeps ++ [1])
          else .raised e sleeps

/-- Embedding of `MyPlaceIQ.send_command` with `max_retries = 3` and
attempt numbers `range(1, max_retries + 1) = [1, 2, 3]`, parameterized by
an oracle giving the outcome of each numbered attempt. -/
def send_command {α ε : Type} (o : Nat → AttemptOutcome α ε) : SendResult α ε :=
  send_command_go o 3 [1, 2, 3] []

/-- The full transport call: each attempt event is first interpreted by
the loop body under the `await_response` flag, then fed to the retry
loop. -/
def send_command_full {ρ ε : Type} (events : Nat → AttemptEvent ρ ε)
    (awaitResponse : Bool) : SendResult (CmdReturn ρ) ε :=
  send_command (fun i => attempt_outcome awaitResponse (events i))

/-- Claim C1: `send_command` makes at most 3 attempts, consulting only
attempts 1, 2 and 3; a failed attempt is followed by a fixed 1-second
backoff before the next attempt; the first successful attempt among the
three has its result returned (the reply when `await_response` is true,
the ack otherwise, per `attempt_outcome`); and when all three attempts
fail the call raises carrying the error of the last attempt.  The `sleeps`
component lists the backoff delays in seconds actually performed. -/
theorem send_command_retry_spec {ρ ε : Type} (events : Nat → AttemptEvent ρ ε)
    (awaitResponse : Bool) :
    (send_command_full events awaitResponse =
      match attempt_outcome awaitResponse (events 1) with
      | .ok r => .done r []
      | .err _ =>
          match attempt_outcome awaitResponse (events 2) with
          | .ok r => .done r [1]
          | .err _ =>
              match attempt_outcome awaitResponse (events 3) with
              | .ok r => .done r [1, 1]
              | .err e => .raised e [1, 1]) ∧
    (∀ recv : AttemptOutcome ρ ε,
      attempt_outcome false (.sent recv) = .ok .ack) ∧
    (∀ r : ρ, @attempt_outcome ρ ε true (.sent (.ok r)) = .ok (.reply r)) := by
  refine ⟨?_, ?_, ?_⟩
  · cases h1 : attempt_outcome awaitResponse (events 1) with
    | ok r => simp [send_command_full, send_command, send_command_go, h1]
    | err e1 =>
        cases h2 : attempt_outcome awaitResponse (events 2) with
        | ok r => simp [send_command_full, send_command, send_command_go, h1, h2]
        | err e2 =>
            cases h3 : attempt_outcome awaitResponse (events 3) with
            | ok r => simp [send_command_full, send_command, send_command_go, h1, h2, h3]
            | err e3 => simp [send_command_full, send_command, send_command_go, h1, h2, h3]
  · intro recv
    simp [attempt_outcome]
  · intro r
    simp [attempt_outcome]

/- ===================== Poller (coordinator.py) ========================= -/

/-- Outcome of the transport call and reply parsing phases of one poll
cycle, as seen by `_async_update_data`: the transport raised, the reply
was not a dict containing a `body` field, the body failed to parse as
JSON, or a body was obtained. -/
inductive PollResponse where
  | transportError : PollResponse
  | invalidShape : PollResponse
  | parseError : PollResponse
  | parsed (body : Body) : PollResponse
  deriving DecidableEq

/-- Result of one poll cycle: data returned to the scheduler, or an
`UpdateFailed` error. -/
inductive UpdateOutcome where
  | success (b : Body) : UpdateOutcome
  | updateFailed : UpdateOutcome
  deriving DecidableEq

/-- Truth of the failure condition of a poll cycle: every non-`parsed`
response fails, and a parsed body fails when its `aircons` or `zones`
mapping is missing or empty (both falsy in the source). -/
def poll_failed : PollResponse → Bool
  | .parsed body => body.aircons.isEmpty || body.zones.isEmpty
  | _ => true

/-- Embedding of `MyPlaceIQDataUpdateCoordinator._async_update_data`
(coordinator.py lines 28-70).  Takes the poll response and the current
`_last_valid_data` cache; returns the cycle outcome and the new cache.
Every failure raised inside the `try` block (invalid shape, parse error,
and the incomplete-body `UpdateFailed`) is caught by the outer
`except Exception` handler, which returns the cached data when present
and re-raises `UpdateFailed` otherwise; a valid body is stored in the
cache and returned. -/
def _async_update_data (resp : PollResponse) (lastValid : Option Body) :
    UpdateOutcome × Option Body :=
  match resp with
  | .parsed body =>
      if body.aircons.isEmpty || body.zones.isEmpty then
        match lastValid with
        | some d => (.success d, some d)
        | none => (.updateFailed, none)
      else (.success body, some body)
  | _ =>
      match lastValid with
      | some d => (.success d, some d)
      | none => (.updateFailed, none)

/-- Claim C2: on any failing poll cycle (transport error, reply without a
`body` mapping, undeserializable body, or missing/empty `aircons` or
`zones`), the cycle returns the stored snapshot unchanged and leaves the
store unchanged when a stored snapshot exists, and fails with an
update-failure outcome when none exists; on a successful cycle the store
is replaced by the new body and the new body is returned. -/
theorem update_data_spec :
    (∀ (resp : PollResponse) (d : Body), poll_failed resp = true →
      _async_update_data resp (some d) = (.success d, some d)) ∧
    (∀ resp : PollResponse, poll_failed resp = true →
      _async_update_data resp none = (.updateFailed, none)) ∧
    (∀ (body : Body) (lastValid : Option Body),
      body.aircons ≠ [] → body.zones ≠ [] →
      _async_update_data (.parsed body) lastValid = (.success body, some body)) := by
  refine ⟨?_, ?_, ?_⟩
  · intro resp d h
    cases resp with
    | parsed body =>
        simp only [poll_failed] at h
        simp [_async_update_data, h]
    | transportError => simp [_async_update_data]
    | invalidShape => simp [_async_update_data]
    | parseError => simp [_async_update_data]
  · intro resp h
    cases resp with
    | parsed body =>
        simp only [poll_failed] at h
        simp [_async_update_data, h]
    | transportError => simp [_async_update_data]
    | invalidShape => simp [_async_update_data]
    | parseError => simp [_async_update_data]
  · intro body lastValid ha hz
    have ha2 : body.aircons.isEmpty = false := by
      simpa [List.isEmpty_iff] using ha
    have hz2 : body.zones.isEmpty = false := by
      simpa [List.isEmpty_iff] using hz
    simp [_async_update_data, ha2, hz2]

/-- Sample aircon entity used by concrete witnesses. -/
def sampleAircon : Entity :=
  [("name", .jstr "Living"), ("isOn", .jbool true), ("mode", .jstr "heat"),
   ("targetTemperatureHeat", .jint 21), ("targetTemperatureCool", .jint 24)]

/-- Sample zone entity used by concrete witnesses. -/
def sampleZone : Entity :=
  [("name", .jstr "Bedroom"), ("isVisible", .jbool true), ("isOn", .jbool true),
   ("targetTemperatureHeat", .jint 20), ("targetTemperatureCool", .jint 25)]

/-- Sample snapshot body used by concrete witnesses. -/
def sampleBody : Body :=
  { aircons := [("a1", sampleAircon)], zones := [("z1", sampleZone)] }

/-- Witness for claim C2 at concrete inputs: a transport error with and
without a cached snapshot, and a successful cycle. -/
theorem update_data_spec_witness :
    _async_update_data .transportError (some sampleBody) =
      (.success sampleBody, some sampleBody) ∧
    _async_update_data .transportError none = (.updateFailed, none) ∧
    _async_update_data (.parsed sampleBody) none =
      (.success sampleBody, some sampleBody) :=
  ⟨update_data_spec.1 .transportError sampleBody rfl,
   update_data_spec.2.1 .transportError rfl,
   update_data_spec.2.2 sampleBody none (by decide) (by decide)⟩

/- ===================== Climate entities (climate.py) =================== -/

/-- The host platform HVAC mode constants used by the integration. -/
inductive HVACMode where
  | auto : HVACMode
  | off : HVACMode
  | heat : HVACMode
  | cool : HVACMode
  | dry : HVACMode
  | fan_only : HVACMode
  deriving DecidableEq

/-- Wire commands built by the integration, one constructor per
`__type` value with its fields. -/
inductive Command where
  | getFullDataEvent : Command
  | setZoneHeatTemperature (zoneId : String) (temperature : Int) : Command
  | setZoneCoolTemperature (zoneId : String) (temperature : Int) : Command
  | setAirconHeatTemperature (airconId : String) (temperature : Int) : Command
  | setAirconCoolTemperature (airconId : String) (temperature : Int) : Command
  | setZoneOpenClose (zoneId : String) (isOpen : Bool) : Command
  | setAirconOnOff (airconId : String) (isOn : Bool) : Command
  | setAirconMode (airconId : String) (mode : String) : Command
  deriving DecidableEq

/-- The wire mode string for a requested HVAC mode (climate.py lines
281-286 and 295-300): heat, cool and dry map to their names and
everything else maps to "fan". -/
def wire_mode : HVACMode → String
  | .heat => "heat"
  | .cool => "cool"
  | .dry => "dry"
  | _ => "fan"

/-- The shared isOn resolution step (climate.py lines 165-167, sensor.py
lines 103-106): take the explicit `isOn` value of the entity when
present, else the cached last-known value, else Python `False`; then
store the resolved value in the cache only when it is truthy.  Returns
the resolved value and the updated cache. -/
def resolve_is_on (entity : Entity) (lastKnown : Option JVal) :
    JVal × Option JVal :=
  let isOn := (Dict.get entity "isOn").getD (lastKnown.getD (.jbool false))
  (isOn, if truthy isOn then some isOn else lastKnown)

/-- Iterated isOn resolution over a sequence of snapshot observations of
one entity, starting from a cache state: the list of values resolved by
each successive invocation. -/
def resolve_is_on_run : Option JVal → List Entity → List JVal
  | _, [] => []
  | lastKnown, e :: rest =>
      (resolve_is_on e lastKnown).1 ::
        resolve_is_on_run (resolve_is_on e lastKnown).2 rest

/-- Cache state left behind by iterated isOn resolution. -/
def resolve_is_on_state : Option JVal → List Entity → Option JVal
  | lastKnown, [] => lastKnown
  | lastKnown, e :: rest => resolve_is_on_state (resolve_is_on e lastKnown).2 rest

/-- Last element of a list, or the default when the list is empty. -/
def lastOr {α : Type} : List α → α → α
  | [], d => d
  | a :: l, _ => lastOr l a

/-- The owning aircon key used by a climate entity: its own id for an
aircon entity, the owner id for a zone entity. -/
def aircon_key (isZone : Bool) (entityId airconId : String) : String :=
  if isZone then airconId else entityId

/-- The resolved mode of the owning aircon: its `mode` value, defaulting
to the string "heat" when absent (climate.py lines 143, 205). -/
def resolved_mode (body : Body) (airconKey : String) : JVal :=
  (Dict.get ((Dict.get body.aircons airconKey).getD []) "mode").getD (.jstr "heat")

/-- Embedding of the `hvac_mode` property (climate.py lines 154-191).
Returns the derived mode together with the updated `_last_known_is_on`
cache field. -/
def hvac_mode (body : Body) (isZone : Bool) (entityId airconId : String)
    (lastKnown : Option JVal) : HVACMode × Option JVal :=
  let aircon := (Dict.get body.aircons (aircon_key isZone entityId airconId)).getD []
  let p := resolve_is_on aircon lastKnown
  let isOn := p.1
  let lastKnown1 := p.2
  if isZone then
    let zone := (Dict.get body.zones entityId).getD []
    let isZoneOn := (Dict.get zone "isOn").getD (.jbool false)
    let lastKnown2 := if truthy isZoneOn then some isZoneOn else lastKnown1
    (if truthy isZoneOn then HVACMode.auto else HVACMode.off, lastKnown2)
  else
    let m := Dict.get aircon "mode"
    let state :=
      if truthy isOn = false then HVACMode.off
      else if m = some (.jstr "heat") then HVACMode.heat
      else if m = some (.jstr "cool") then HVACMode.cool
      else if m = some (.jstr "dry") then HVACMode.dry
      else if m = some (.jstr "fan") then HVACMode.fan_only
      else HVACMode.off
    (state, lastKnown1)

/-- Embedding of the `target_temperature` property (climate.py lines
133-152): resolve the owning aircon mode, then read the heat setpoint
under heat, the cool setpoint under cool, and nothing otherwise. -/
def target_temperature (body : Body) (isZone : Bool)
    (entityId airconId : String) : Option JVal :=
  let mode := resolved_mode body (aircon_key isZone entityId airconId)
  let target := (Dict.get (if isZone then body.zones else body.aircons) entityId).getD []
  if mode = .jstr "heat" then Dict.get target "targetTemperatureHeat"
  else if mode = .jstr "cool" then Dict.get target "targetTemperatureCool"
  else none

/-- Commands dispatched and patched body produced by an optimistic
mutation. -/
structure MutationResult where
  commands : List Command
  body : Body
  deriving DecidableEq

/-- Embedding of `async_set_temperature` (climate.py lines 193-235).
A missing temperature is a no-op.  Otherwise the owning aircon mode is
resolved (default "heat"); the command is the heat variant when the mode
is "heat" and the cool variant for every other mode; the optimistic patch
writes the heat setpoint under "heat", the cool setpoint under "cool",
and nothing otherwise; the patched entity is written back into the
snapshot. -/
def async_set_temperature (body : Body) (isZone : Bool)
    (entityId airconId : String) (temperature : Option Int) : MutationResult :=
  match temperature with
  | none => ⟨[], body⟩
  | some t =>
      let mode := resolved_mode body (aircon_key isZone entityId airconId)
      let cmd :=
        if isZone then
          if mode = .jstr "heat" then Command.setZoneHeatTemperature entityId t
          else Command.setZoneCoolTemperature entityId t
        else
          if mode = .jstr "heat" then Command.setAirconHeatTemperature entityId t
          else Command.setAirconCoolTemperature entityId t
      let target := (Dict.get (if isZone then body.zones else body.aircons) entityId).getD []
      let target2 :=
        if mode = .jstr "heat" then Dict.set target "targetTemperatureHeat" (.jint t)
        else if mode = .jstr "cool" then Dict.set target "targetTemperatureCool" (.jint t)
        else target
      let body2 :=
        if isZone then { body with zones := Dict.set body.zones entityId target2 }
        else { body with aircons := Dict.set body.aircons entityId target2 }
      ⟨[cmd], body2⟩

/-- Result of an optimistic HVAC-mode mutation, including the updated
`_last_known_is_on` cache field. -/
structure ModeMutationResult where
  commands : List Command
  body : Body
  lastKnown : Option JVal
  deriving DecidableEq

/-- Embedding of `async_set_hvac_mode` (climate.py lines 237-310).  For a
zone, modes other than AUTO and OFF are rejected with no command and no
patch; AUTO opens the zone and patches `isOn` true, OFF closes it and
patches `isOn` false, both updating the last-known cache.  For an aircon,
OFF emits a single power-off command and patches `isOn` false; any other
mode emits power-on followed by set-mode and patches `isOn` true and
`mode` to the wire mode string. -/
def async_set_hvac_mode (body : Body) (isZone : Bool) (entityId : String)
    (lastKnown : Option JVal) (m : HVACMode) : ModeMutationResult :=
  if isZone then
    if m = HVACMode.auto ∨ m = HVACMode.off then
      let newState := m = HVACMode.auto
      let zone := (Dict.get body.zones entityId).getD []
      let zone2 := Dict.set zone "isOn" (.jbool newState)
      ⟨[Command.setZoneOpenClose entityId newState],
       { body with zones := Dict.set body.zones entityId zone2 },
       some (.jbool newState)⟩
    else ⟨[], body, lastKnown⟩
  else
    let cmds :=
      if m = HVACMode.off then [Command.setAirconOnOff entityId false]
      else [Command.setAirconOnOff entityId true,
            Command.setAirconMode entityId (wire_mode m)]
    let aircon := (Dict.get body.aircons entityId).getD []
    let aircon2 := Dict.set aircon "isOn" (.jbool (m ≠ HVACMode.off))
    let aircon3 :=
      if m ≠ HVACMode.off then Dict.set aircon2 "mode" (.jstr (wire_mode m))
      else aircon2
    ⟨cmds, { body with aircons := Dict.set body.aircons entityId aircon3 },
     some (.jbool (m ≠ HVACMode.off))⟩

/-- Field lookup in a snapshot: the value of field `f` of the zone
(`kind = true`) or aircon (`kind = false`) with the given id, a missing
entity reading as the empty dict. -/
def entity_field (body : Body) (kind : Bool) (entityId f : String) : Option JVal :=
  Dict.get ((Dict.get (if kind then body.zones else body.aircons) entityId).getD []) f

/- ===================== Helper lemmas for the sticky cache ============== -/

theorem lastOr_append {α : Type} (l : List α) (a d : α) :
    lastOr (l ++ [a]) d = a := by
  induction l generalizing d with
  | nil => simp [lastOr]
  | cons hd tl ih => simpa [lastOr] using ih hd

theorem resolve_is_on_run_append (pre : List Entity) (e : Entity)
    (lastKnown : Option JVal) :
    resolve_is_on_run lastKnown (pre ++ [e]) =
      resolve_is_on_run lastKnown pre ++
        [(resolve_is_on e (resolve_is_on_state lastKnown pre)).1] := by
  induction pre generalizing lastKnown with
  | nil => simp [resolve_is_on_run, resolve_is_on_state]
  | cons hd tl ih =>
      simp [resolve_is_on_run, resolve_is_on_state, ih]

theorem resolve_is_on_state_eq (pre : List Entity) (lastKnown : Option JVal) :
    resolve_is_on_state lastKnown pre =
      lastOr (((resolve_is_on_run lastKnown pre).filter truthy).map some)
        lastKnown := by
  induction pre generalizing lastKnown with
  | nil => simp [resolve_is_on_run, resolve_is_on_state, lastOr]
  | cons hd tl ih =>
      cases ht : truthy (resolve_is_on hd lastKnown).1 with
      | true =>
          have hstate : (resolve_is_on hd lastKnown).2 =
              some (resolve_is_on hd lastKnown).1 := by
            simp [resolve_is_on] at ht ⊢
            simp [ht]
          simp [resolve_is_on_run, resolve_is_on_state, ht, lastOr, hstate, ih]
      | false =>
          have hstate : (resolve_is_on hd lastKnown).2 = lastKnown := by
            simp [resolve_is_on] at ht ⊢
            simp [ht]
          simp [resolve_is_on_run, resolve_is_on_state, ht, lastOr, hstate, ih]

theorem lastOr_map_some_getD (l : List JVal) (d0 : Option JVal) (d : JVal) :
    (lastOr (l.map some) d0).getD d = lastOr l (d0.getD d) := by
  induction l generalizing d0 with
  | nil => simp [lastOr]
  | cons hd tl ih => simpa [lastOr] using ih (some hd)

/-- Counterexample to claim C4: for the observation sequence in which the
entity reports `isOn` true, then `isOn` false, then omits the field, the
code resolves the third observation to true, while the last value observed
by the same computation was false (the cache is only updated on truthy
resolutions, so the explicit false was never stored).  The conjuncts
record the resolved sequence, that the third observation omits the field,
and that the last previously observed value was false. -/
theorem resolve_is_on_sticky_counterexample :
    resolve_is_on_run none
        [[("isOn", JVal.jbool true)], [("isOn", JVal.jbool false)], []] =
      [JVal.jbool true, JVal.jbool false, JVal.jbool true] ∧
    Dict.get ([] : Entity) "isOn" = none ∧
    lastOr (resolve_is_on_run none
        [[("isOn", JVal.jbool true)], [("isOn", JVal.jbool false)]])
      (JVal.jbool false) = JVal.jbool false := by
  refine ⟨?_, rfl, ?_⟩ <;> decide

/-- Claim C4 as amended: the resolved isOn value equals the explicit
`isOn` field when present; when the field is absent, it equals the most
recent truthy value resolved by this same computation (the cache is
updated only on truthy resolutions), defaulting to false when no truthy
value was ever resolved; and the zone open/closed derivation uses no
historical fallback at all (its result is independent of the cache
state). -/
theorem resolve_is_on_amended :
    (∀ (pre : List Entity) (e : Entity) (v : JVal),
      Dict.get e "isOn" = some v →
      lastOr (resolve_is_on_run none (pre ++ [e])) (.jbool false) = v) ∧
    (∀ (pre : List Entity) (e : Entity),
      Dict.get e "isOn" = none →
      lastOr (resolve_is_on_run none (pre ++ [e])) (.jbool false) =
        lastOr ((resolve_is_on_run none pre).filter truthy) (.jbool false)) ∧
    (∀ (body : Body) (zoneId airconId : String) (lk lk2 : Option JVal),
      (hvac_mode body true zoneId airconId lk).1 =
        (hvac_mode body true zoneId airconId lk2).1) := by
  refine ⟨?_, ?_, ?_⟩
  · intro pre e v h
    rw [resolve_is_on_run_append, lastOr_append]
    simp [resolve_is_on, h]
  · intro pre e h
    rw [resolve_is_on_run_append, lastOr_append]
    rw [resolve_is_on_state_eq]
    simp only [resolve_is_on, h, Option.getD_none]
    rw [lastOr_map_some_getD]
    rfl
  · intro body zoneId airconId lk lk2
    simp [hvac_mode]

/-- Witness for the amended claim C4 at concrete inputs: an explicit
value is returned as is; an absent value after the sequence
true-then-false resolves to the last truthy resolution; and the zone
derivation gives the same mode for two different cache states. -/
theorem resolve_is_on_amended_witness :
    lastOr (resolve_is_on_run none ([[("isOn", JVal.jbool true)]] ++
        [[("isOn", JVal.jbool false)]])) (.jbool false) = JVal.jbool false ∧
    lastOr (resolve_is_on_run none
        ([[("isOn", JVal.jbool true)], [("isOn", JVal.jbool false)]] ++ [[]]))
      (.jbool false) =
      lastOr ((resolve_is_on_run none
        [[("isOn", JVal.jbool true)], [("isOn", JVal.jbool false)]]).filter
          truthy) (.jbool false) ∧
    (hvac_mode sampleBody true "z1" "a1" none).1 =
      (hvac_mode sampleBody true "z1" "a1" (some (.jbool false))).1 :=
  ⟨resolve_is_on_amended.1 [[("isOn", JVal.jbool true)]]
      [("isOn", JVal.jbool false)] (JVal.jbool false) rfl,
   resolve_is_on_amended.2.1
      [[("isOn", JVal.jbool true)], [("isOn", JVal.jbool false)]] [] rfl,
   resolve_is_on_amended.2.2 sampleBody "z1" "a1" none (some (.jbool false))⟩

/-- Claim C5: the zone HVAC mode is OFF exactly when the zone isOn value
(defaulting to false when absent) is falsy and AUTO otherwise; the aircon
HVAC mode is OFF whenever the resolved isOn value is falsy, regardless of
the mode value; and when the resolved isOn value is truthy the mode
string heat, cool, dry or fan maps to HEAT, COOL, DRY or FAN_ONLY, with
OFF for any other or absent value. -/
theorem hvac_mode_derivation_spec :
    (∀ (body : Body) (zoneId airconId : String) (lastKnown : Option JVal),
      (hvac_mode body true zoneId airconId lastKnown).1 =
        if truthy ((Dict.get ((Dict.get body.zones zoneId).getD []) "isOn").getD
            (.jbool false)) then HVACMode.auto else HVACMode.off) ∧
    (∀ (body : Body) (airconId : String) (lastKnown : Option JVal),
      truthy (resolve_is_on ((Dict.get body.aircons airconId).getD [])
          lastKnown).1 = false →
      (hvac_mode body false airconId airconId lastKnown).1 = HVACMode.off) ∧
    (∀ (body : Body) (airconId : String) (lastKnown : Option JVal),
      truthy (resolve_is_on ((Dict.get body.aircons airconId).getD [])
          lastKnown).1 = true →
      (hvac_mode body false airconId airconId lastKnown).1 =
        (if Dict.get ((Dict.get body.aircons airconId).getD []) "mode" =
            some (.jstr "heat") then HVACMode.heat
         else if Dict.get ((Dict.get body.aircons airconId).getD []) "mode" =
            some (.jstr "cool") then HVACMode.cool
         else if Dict.get ((Dict.get body.aircons airconId).getD []) "mode" =
            some (.jstr "dry") then HVACMode.dry
         else if Dict.get ((Dict.get body.aircons airconId).getD []) "mode" =
            some (.jstr "fan") then HVACMode.fan_only
         else HVACMode.off)) := by
  refine ⟨?_, ?_, ?_⟩
  · intro body zoneId airconId lastKnown
    simp [hvac_mode]
  · intro body airconId lastKnown h
    simp [hvac_mode, aircon_key, h]
  · intro body airconId lastKnown h
    simp [hvac_mode, aircon_key, h]

/-- Sample aircon entity that is on but carries an unrecognized mode
string, used by concrete witnesses. -/
def sampleAirconOdd : Entity := [("isOn", .jbool true), ("mode", .jstr "boost")]

/-- Sample aircon entity that is off while claiming heat mode, used by
concrete witnesses. -/
def sampleAirconOff : Entity := [("isOn", .jbool false), ("mode", .jstr "heat")]

/-- Sample snapshot body holding the off aircon and the odd-mode aircon,
used by concrete witnesses. -/
def sampleBodyMixed : Body :=
  { aircons := [("off1", sampleAirconOff), ("odd1", sampleAirconOdd)],
    zones := [("z1", sampleZone)] }

/-- Witness for claim C5 at concrete inputs: an off aircon in heat mode
derives OFF, and an on aircon with an unrecognized mode also derives
OFF. -/
theorem hvac_mode_derivation_spec_witness :
    (hvac_mode sampleBodyMixed false "off1" "off1" none).1 = HVACMode.off ∧
    (hvac_mode sampleBodyMixed false "odd1" "odd1" none).1 =
      (if Dict.get ((Dict.get sampleBodyMixed.aircons "odd1").getD []) "mode" =
          some (.jstr "heat") then HVACMode.heat
       else if Dict.get ((Dict.get sampleBodyMixed.aircons "odd1").getD [])
          "mode" = some (.jstr "cool") then HVACMode.cool
       else if Dict.get ((Dict.get sampleBodyMixed.aircons "odd1").getD [])
          "mode" = some (.jstr "dry") then HVACMode.dry
       else if Dict.get ((Dict.get sampleBodyMixed.aircons "odd1").getD [])
          "mode" = some (.jstr "fan") then HVACMode.fan_only
       else HVACMode.off) :=
  ⟨hvac_mode_derivation_spec.2.1 sampleBodyMixed "off1" none (by decide),
   hvac_mode_derivation_spec.2.2 sampleBodyMixed "odd1" none (by decide)⟩

/- ===================== SetTemperature (claims C3, C8-C10) ============== -/

/-- Sample aircon entity in dry mode, used by concrete witnesses and
counterexamples. -/
def sampleAirconDry : Entity :=
  [("isOn", .jbool true), ("mode", .jstr "dry"),
   ("targetTemperatureHeat", .jint 21), ("targetTemperatureCool", .jint 24)]

/-- Sample snapshot body whose only aircon is in dry mode. -/
def sampleBodyDry : Body :=
  { aircons := [("a1", sampleAirconDry)], zones := [("z1", sampleZone)] }

/-- Counterexample to claim C3: on a snapshot whose aircon is in dry
mode, `async_set_temperature` builds the cool command variant although
the resolved mode is dry rather than cool, and it does not patch the cool
setpoint (which keeps its old value 24), so the command variant and the
patch are not selected by the same mode. -/
theorem set_temperature_mode_counterexample :
    (async_set_temperature sampleBodyDry false "a1" "a1" (some 20)).commands =
      [Command.setAirconCoolTemperature "a1" 20] ∧
    resolved_mode sampleBodyDry "a1" = .jstr "dry" ∧
    entity_field (async_set_temperature sampleBodyDry false "a1" "a1"
        (some 20)).body false "a1" "targetTemperatureCool" = some (.jint 24) := by
  refine ⟨?_, ?_, ?_⟩ <;> decide

/-- Lookup into a dict after patching one field of one entry: any other
entry, and any other field of the patched entry, are unchanged. -/
theorem patch_lookup (m : Dict Entity) (eid id f fld : String) (v : JVal)
    (h : ¬(id = eid ∧ f = fld)) :
    Dict.get ((Dict.get (Dict.set m eid
        (Dict.set ((Dict.get m eid).getD []) fld v)) id).getD []) f =
      Dict.get ((Dict.get m id).getD []) f := by
  by_cases hid : id = eid
  · subst hid
    rw [Dict.get_set_self]
    have hf : f ≠ fld := fun hf => h ⟨rfl, hf⟩
    simp [Dict.get_set_of_ne _ fld f v (Ne.symm hf)]
  · rw [Dict.get_set_of_ne m eid id _ (Ne.symm hid)]

/-- Lookup into a dict after rewriting one entry with its own current
value: every lookup is unchanged. -/
theorem rewrite_lookup (m : Dict Entity) (eid id f : String) :
    Dict.get ((Dict.get (Dict.set m eid ((Dict.get m eid).getD [])) id).getD
        []) f = Dict.get ((Dict.get m id).getD []) f := by
  by_cases hid : id = eid
  · subst hid
    rw [Dict.get_set_self]
    simp
  · rw [Dict.get_set_of_ne m eid id _ (Ne.symm hid)]

/-- The command list built by `async_set_temperature` for a present
temperature: one command, the heat variant under resolved mode "heat" and
the cool variant under every other resolved mode. -/
theorem set_temperature_commands (body : Body) (isZone : Bool)
    (entityId airconId : String) (t : Int) :
    (async_set_temperature body isZone entityId airconId (some t)).commands =
      [if resolved_mode body (aircon_key isZone entityId airconId) = .jstr "heat"
       then
         (if isZone then Command.setZoneHeatTemperature entityId t
          else Command.setAirconHeatTemperature entityId t)
       else
         (if isZone then Command.setZoneCoolTemperature entityId t
          else Command.setAirconCoolTemperature entityId t)] := by
  by_cases h : resolved_mode body (aircon_key isZone entityId airconId) = .jstr "heat" <;>
    cases isZone <;> simp [async_set_temperature, h]

/-- The optimistic patch of `async_set_temperature` under resolved mode
"heat": the heat setpoint of the target entity becomes the new value. -/
theorem set_temperature_patch_heat (body : Body) (isZone : Bool)
    (entityId airconId : String) (t : Int)
    (h : resolved_mode body (aircon_key isZone entityId airconId) = .jstr "heat") :
    entity_field (async_set_temperature body isZone entityId airconId
        (some t)).body isZone entityId "targetTemperatureHeat" =
      some (.jint t) := by
  cases isZone <;> simp [async_set_temperature, entity_field, h, Dict.get_set_self]

/-- The optimistic patch of `async_set_temperature` under resolved mode
"cool": the cool setpoint of the target entity becomes the new value. -/
theorem set_temperature_patch_cool (body : Body) (isZone : Bool)
    (entityId airconId : String) (t : Int)
    (h : resolved_mode body (aircon_key isZone entityId airconId) = .jstr "cool") :
    entity_field (async_set_temperature body isZone entityId airconId
        (some t)).body isZone entityId "targetTemperatureCool" =
      some (.jint t) := by
  have hne : resolved_mode body (aircon_key isZone entityId airconId) ≠ .jstr "heat" := by
    rw [h]
    decide
  cases isZone <;>
    simp [async_set_temperature, entity_field, h, hne, Dict.get_set_self]

/-- The optimistic patch of `async_set_temperature` under a resolved mode
that is neither "heat" nor "cool": no field of the target entity
changes. -/
theorem set_temperature_patch_other (body : Body) (isZone : Bool)
    (entityId airconId : String) (t : Int)
    (h1 : resolved_mode body (aircon_key isZone entityId airconId) ≠ .jstr "heat")
    (h2 : resolved_mode body (aircon_key isZone entityId airconId) ≠ .jstr "cool")
    (f : String) :
    entity_field (async_set_temperature body isZone entityId airconId
        (some t)).body isZone entityId f =
      entity_field body isZone entityId f := by
  cases isZone <;>
    simp [async_set_temperature, entity_field, h1, h2, rewrite_lookup]

/-- Claim C3 as amended: the resolved mode is the mode of the owning
aircon, defaulting to heat when absent; exactly one command is dispatched,
the heat variant when the resolved mode is heat and the cool variant for
every other resolved mode (including dry and fan); the optimistic patch
writes the heat setpoint under resolved mode heat and the cool setpoint
under resolved mode cool, and under any other resolved mode the cool
command variant is dispatched without any field being patched. -/
theorem set_temperature_amended (body : Body) (isZone : Bool)
    (entityId airconId : String) (t : Int) :
    ((async_set_temperature body isZone entityId airconId (some t)).commands =
      [if resolved_mode body (aircon_key isZone entityId airconId) = .jstr "heat"
       then
         (if isZone then Command.setZoneHeatTemperature entityId t
          else Command.setAirconHeatTemperature entityId t)
       else
         (if isZone then Command.setZoneCoolTemperature entityId t
          else Command.setAirconCoolTemperature entityId t)]) ∧
    (resolved_mode body (aircon_key isZone entityId airconId) = .jstr "heat" →
      entity_field (async_set_temperature body isZone entityId airconId
          (some t)).body isZone entityId "targetTemperatureHeat" =
        some (.jint t)) ∧
    (resolved_mode body (aircon_key isZone entityId airconId) = .jstr "cool" →
      entity_field (async_set_temperature body isZone entityId airconId
          (some t)).body isZone entityId "targetTemperatureCool" =
        some (.jint t)) ∧
    (resolved_mode body (aircon_key isZone entityId airconId) ≠ .jstr "heat" →
      resolved_mode body (aircon_key isZone entityId airconId) ≠ .jstr "cool" →
      ∀ f : String,
        entity_field (async_set_temperature body isZone entityId airconId
            (some t)).body isZone entityId f =
          entity_field body isZone entityId f) :=
  ⟨set_temperature_commands body isZone entityId airconId t,
   set_temperature_patch_heat body isZone entityId airconId t,
   set_temperature_patch_cool body isZone entityId airconId t,
   fun h1 h2 f => set_temperature_patch_other body isZone entityId airconId t h1 h2 f⟩

/-- Sample aircon entity in cool mode, used by concrete witnesses. -/
def sampleAirconCool : Entity :=
  [("isOn", .jbool true), ("mode", .jstr "cool"),
   ("targetTemperatureHeat", .jint 21), ("targetTemperatureCool", .jint 24)]

/-- Sample snapshot body whose only aircon is in cool mode. -/
def sampleBodyCool : Body :=
  { aircons := [("a1", sampleAirconCool)], zones := [("z1", sampleZone)] }

/-- Witness for the amended claim C3 at concrete inputs: the heat patch
on a heat-mode snapshot, the cool patch on a cool-mode snapshot, and the
absence of any patch on a dry-mode snapshot. -/
theorem set_temperature_amended_witness :
    entity_field (async_set_temperature sampleBody true "z1" "a1"
        (some 22)).body true "z1" "targetTemperatureHeat" = some (.jint 22) ∧
    entity_field (async_set_temperature sampleBodyCool true "z1" "a1"
        (some 23)).body true "z1" "targetTemperatureCool" = some (.jint 23) ∧
    entity_field (async_set_temperature sampleBodyDry false "a1" "a1"
        (some 20)).body false "a1" "targetTemperatureHeat" =
      entity_field sampleBodyDry false "a1" "targetTemperatureHeat" :=
  ⟨(set_temperature_amended sampleBody true "z1" "a1" 22).2.1 (by decide),
   (set_temperature_amended sampleBodyCool true "z1" "a1" 23).2.2.1 (by decide),
   (set_temperature_amended sampleBodyDry false "a1" "a1" 20).2.2.2
     (by decide) (by decide) "targetTemperatureHeat"⟩

/- ===================== SetHvacMode (claims C6, C7) ===================== -/

/-- Claim C6: a SetHvacMode intent on a zone with requested mode AUTO
sends exactly one SetZoneOpenClose command with isOpen true and patches
the cached zone isOn to true; requested mode OFF sends exactly one
SetZoneOpenClose command with isOpen false and patches isOn to false; any
other requested mode sends no command and leaves the snapshot and the
last-known cache unchanged, raising no error. -/
theorem set_hvac_mode_zone_spec :
    (∀ (body : Body) (zoneId : String) (lk : Option JVal),
      (async_set_hvac_mode body true zoneId lk HVACMode.auto).commands =
        [Command.setZoneOpenClose zoneId true] ∧
      entity_field (async_set_hvac_mode body true zoneId lk
          HVACMode.auto).body true zoneId "isOn" = some (.jbool true)) ∧
    (∀ (body : Body) (zoneId : String) (lk : Option JVal),
      (async_set_hvac_mode body true zoneId lk HVACMode.off).commands =
        [Command.setZoneOpenClose zoneId false] ∧
      entity_field (async_set_hvac_mode body true zoneId lk
          HVACMode.off).body true zoneId "isOn" = some (.jbool false)) ∧
    (∀ (body : Body) (zoneId : String) (lk : Option JVal) (m : HVACMode),
      m ≠ HVACMode.auto → m ≠ HVACMode.off →
      async_set_hvac_mode body true zoneId lk m = ⟨[], body, lk⟩) := by
  refine ⟨?_, ?_, ?_⟩
  · intro body zoneId lk
    constructor
    · simp [async_set_hvac_mode]
    · simp [async_set_hvac_mode, entity_field, Dict.get_set_self]
  · intro body zoneId lk
    constructor
    · simp [async_set_hvac_mode]
    · simp [async_set_hvac_mode, entity_field, Dict.get_set_self]
  · intro body zoneId lk m h1 h2
    simp [async_set_hvac_mode, h1, h2]

/-- Witness for claim C6 at concrete inputs: AUTO opens and patches,
OFF closes and patches, HEAT on a zone is a rejected no-op. -/
theorem set_hvac_mode_zone_spec_witness :
    (async_set_hvac_mode sampleBody true "z1" none HVACMode.auto).commands =
      [Command.setZoneOpenClose "z1" true] ∧
    entity_field (async_set_hvac_mode sampleBody true "z1" none
        HVACMode.auto).body true "z1" "isOn" = some (.jbool true) ∧
    async_set_hvac_mode sampleBody true "z1" none HVACMode.heat =
      ⟨[], sampleBody, none⟩ :=
  ⟨(set_hvac_mode_zone_spec.1 sampleBody "z1" none).1,
   (set_hvac_mode_zone_spec.1 sampleBody "z1" none).2,
   set_hvac_mode_zone_spec.2.2 sampleBody "z1" none HVACMode.heat
     (by decide) (by decide)⟩

/-- Claim C7: SetHvacMode(OFF) on an aircon, issued twice in a row, emits
the same single power-off command on both invocations and leaves the
cached aircon isOn false after each invocation; any of the supported
non-OFF modes emits exactly the two commands power-on then set-mode and
patches isOn to true and mode to the wire string of the requested
mode. -/
theorem set_hvac_mode_aircon_spec :
    (∀ (body : Body) (airconId : String) (lk : Option JVal),
      (async_set_hvac_mode body false airconId lk HVACMode.off).commands =
        [Command.setAirconOnOff airconId false] ∧
      (async_set_hvac_mode
          (async_set_hvac_mode body false airconId lk HVACMode.off).body
          false airconId
          (async_set_hvac_mode body false airconId lk HVACMode.off).lastKnown
          HVACMode.off).commands = [Command.setAirconOnOff airconId false] ∧
      entity_field (async_set_hvac_mode body false airconId lk
          HVACMode.off).body false airconId "isOn" = some (.jbool false) ∧
      entity_field (async_set_hvac_mode
          (async_set_hvac_mode body false airconId lk HVACMode.off).body
          false airconId
          (async_set_hvac_mode body false airconId lk HVACMode.off).lastKnown
          HVACMode.off).body false airconId "isOn" = some (.jbool false)) ∧
    (∀ (body : Body) (airconId : String) (lk : Option JVal) (m : HVACMode),
      m ∈ ([HVACMode.heat, HVACMode.cool, HVACMode.dry, HVACMode.fan_only] :
          List HVACMode) →
      (async_set_hvac_mode body false airconId lk m).commands =
        [Command.setAirconOnOff airconId true,
         Command.setAirconMode airconId (wire_mode m)] ∧
      entity_field (async_set_hvac_mode body false airconId lk m).body
        false airconId "isOn" = some (.jbool true) ∧
      entity_field (async_set_hvac_mode body false airconId lk m).body
        false airconId "mode" = some (.jstr (wire_mode m))) := by
  constructor
  · intro body airconId lk
    refine ⟨?_, ?_, ?_, ?_⟩ <;>
      simp [async_set_hvac_mode, entity_field, Dict.get_set_self]
  · intro body airconId lk m hm
    simp only [List.mem_cons, List.mem_singleton] at hm
    have hoff : m ≠ HVACMode.off := by
      rcases hm with rfl | rfl | rfl | rfl | h
      · decide
      · decide
      · decide
      · decide
      · exact absurd h (by simp)
    refine ⟨?_, ?_, ?_⟩
    · simp [async_set_hvac_mode, hoff]
    · have hne : ("mode" : String) ≠ "isOn" := by decide
      simp [async_set_hvac_mode, entity_field, hoff, Dict.get_set_self,
        Dict.get_set_of_ne _ "mode" "isOn" _ hne]
    · simp [async_set_hvac_mode, entity_field, hoff, Dict.get_set_self]

/-- Witness for claim C7 at concrete inputs: the double power-off on the
sample snapshot and a HEAT request on the same snapshot. -/
theorem set_hvac_mode_aircon_spec_witness :
    (async_set_hvac_mode sampleBody false "a1" none HVACMode.off).commands =
      [Command.setAirconOnOff "a1" false] ∧
    entity_field (async_set_hvac_mode
        (async_set_hvac_mode sampleBody false "a1" none HVACMode.off).body
        false "a1"
        (async_set_hvac_mode sampleBody false "a1" none HVACMode.off).lastKnown
        HVACMode.off).body false "a1" "isOn" = some (.jbool false) ∧
    (async_set_hvac_mode sampleBody false "a1" none HVACMode.heat).commands =
      [Command.setAirconOnOff "a1" true,
       Command.setAirconMode "a1" (wire_mode HVACMode.heat)] :=
  ⟨(set_hvac_mode_aircon_spec.1 sampleBody "a1" none).1,
   (set_hvac_mode_aircon_spec.1 sampleBody "a1" none).2.2.2,
   (set_hvac_mode_aircon_spec.2 sampleBody "a1" none HVACMode.heat
     (by decide)).1⟩

/- ===================== Round trip, bounds and frame ==================== -/

/-- A SetTemperature mutation on a zone leaves the aircons mapping of the
snapshot untouched. -/
theorem set_temperature_aircons_unchanged (body : Body)
    (zoneId airconId : String) (t : Int) :
    (async_set_temperature body true zoneId airconId (some t)).body.aircons =
      body.aircons := by
  simp [async_set_temperature]

/-- Claim C8: when the owning aircon of a zone has resolved mode heat,
the optimistic patch of SetTemperature(zoneId, true, 22) is immediately
visible through the target-temperature derivation, which returns 22 from
the patched snapshot without any intervening poll. -/
theorem set_temperature_round_trip (body : Body) (zoneId airconId : String)
    (h : resolved_mode body airconId = .jstr "heat") :
    target_temperature (async_set_temperature body true zoneId airconId
        (some 22)).body true zoneId airconId = some (.jint 22) := by
  have hkey : aircon_key true zoneId airconId = airconId := rfl
  have hmode : resolved_mode (async_set_temperature body true zoneId airconId
      (some 22)).body airconId = .jstr "heat" := by
    unfold resolved_mode
    rw [set_temperature_aircons_unchanged]
    exact h
  have hpatch := set_temperature_patch_heat body true zoneId airconId 22
    (by rw [hkey]; exact h)
  simp only [entity_field, if_pos] at hpatch
  simp only [target_temperature, hkey, hmode, if_pos]
  simpa using hpatch

/-- Witness for claim C8: the round trip on the concrete sample snapshot,
whose aircon is in heat mode. -/
theorem set_temperature_round_trip_witness :
    target_temperature (async_set_temperature sampleBody true "z1" "a1"
        (some 22)).body true "z1" "a1" = some (.jint 22) :=
  set_temperature_round_trip sampleBody "z1" "a1" (by decide)

/-- Lower temperature bound declared by the climate entity
(climate.py line 73). -/
def min_temp : Int := 16

/-- Upper temperature bound declared by the climate entity
(climate.py line 74). -/
def max_temp : Int := 30

/-- Modelled from the spec: the policy layer that rejects SetTemperature
intents outside the declared [16, 30] bounds.  The enforcement itself is
performed by the host platform (an external collaborator outside this
repository) against the min and max values the entity declares; an
in-range intent reaches `async_set_temperature`, an out-of-range intent
is rejected and nothing is dispatched to the hub. -/
def platform_set_temperature (body : Body) (isZone : Bool)
    (entityId airconId : String) (t : Int) : Option MutationResult :=
  if min_temp ≤ t ∧ t ≤ max_temp then
    some (async_set_temperature body isZone entityId airconId (some t))
  else none

/-- Claim C9: a SetTemperature intent with value 16 or 30 passes the
policy gate, dispatches exactly one command and patches the selected
setpoint of the cache (shown here for resolved mode heat); every value
outside [16, 30] is rejected by the policy gate with nothing
dispatched. -/
theorem temperature_bounds_spec :
    (∀ (body : Body) (isZone : Bool) (entityId airconId : String) (t : Int),
      t = 16 ∨ t = 30 →
      platform_set_temperature body isZone entityId airconId t =
        some (async_set_temperature body isZone entityId airconId (some t)) ∧
      (async_set_temperature body isZone entityId airconId
          (some t)).commands.length = 1 ∧
      (resolved_mode body (aircon_key isZone entityId airconId) = .jstr "heat" →
        entity_field (async_set_temperature body isZone entityId airconId
            (some t)).body isZone entityId "targetTemperatureHeat" =
          some (.jint t))) ∧
    (∀ (body : Body) (isZone : Bool) (entityId airconId : String) (t : Int),
      t < 16 ∨ 30 < t →
      platform_set_temperature body isZone entityId airconId t = none) := by
  constructor
  · intro body isZone entityId airconId t ht
    refine ⟨?_, ?_, ?_⟩
    · rcases ht with rfl | rfl <;>
        simp [platform_set_temperature, min_temp, max_temp]
    · rw [set_temperature_commands]
      simp
    · exact set_temperature_patch_heat body isZone entityId airconId t
  · intro body isZone entityId airconId t ht
    simp only [platform_set_temperature, min_temp, max_temp]
    rcases ht with h | h
    · rw [if_neg]
      omega
    · rw [if_neg]
      omega

/-- Witness for claim C9 at concrete inputs: 16 passes the gate and
patches the heat setpoint of the sample snapshot, while 31 and 15 are
rejected. -/
theorem temperature_bounds_spec_witness :
    platform_set_temperature sampleBody true "z1" "a1" 16 =
      some (async_set_temperature sampleBody true "z1" "a1" (some 16)) ∧
    entity_field (async_set_temperature sampleBody true "z1" "a1"
        (some 16)).body true "z1" "targetTemperatureHeat" = some (.jint 16) ∧
    platform_set_temperature sampleBody true "z1" "a1" 31 = none ∧
    platform_set_temperature sampleBody true "z1" "a1" 15 = none :=
  ⟨(temperature_bounds_spec.1 sampleBody true "z1" "a1" 16 (Or.inl rfl)).1,
   (temperature_bounds_spec.1 sampleBody true "z1" "a1" 16
      (Or.inl rfl)).2.2 (by decide),
   temperature_bounds_spec.2 sampleBody true "z1" "a1" 31 (Or.inr (by decide)),
   temperature_bounds_spec.2 sampleBody true "z1" "a1" 15 (Or.inl (by decide))⟩

/-- The setpoint field selected for patching by a resolved mode: the heat
setpoint under "heat", the cool setpoint under "cool", none otherwise. -/
def selected_field (mode : JVal) : Option String :=
  if mode = .jstr "heat" then some "targetTemperatureHeat"
  else if mode = .jstr "cool" then some "targetTemperatureCool"
  else none

/-- Claim C10: the optimistic patch of SetTemperature changes at most the
selected setpoint field of the single target entity: every field lookup
other than the selected field of the target (every other field of that
entity, every other zone, every other aircon, and, when the resolved mode
is neither heat nor cool, every field whatsoever) reads the same value in
the patched snapshot as in the original. -/
theorem set_temperature_frame (body : Body) (isZone : Bool)
    (entityId airconId : String) (t : Int) (kind : Bool) (id f : String)
    (h : ¬(kind = isZone ∧ id = entityId ∧ some f =
      selected_field (resolved_mode body (aircon_key isZone entityId airconId)))) :
    entity_field (async_set_temperature body isZone entityId airconId
        (some t)).body kind id f = entity_field body kind id f := by
  cases isZone with
  | true =>
      cases kind with
      | false => simp [entity_field, async_set_temperature]
      | true =>
          have h2 : ¬(id = entityId ∧ some f =
              selected_field (resolved_mode body (aircon_key true entityId airconId))) :=
            fun hc => h ⟨rfl, hc.1, hc.2⟩
          by_cases hmh : resolved_mode body (aircon_key true entityId airconId) = .jstr "heat"
          · have h3 : ¬(id = entityId ∧ f = "targetTemperatureHeat") := by
              intro hc
              exact h2 ⟨hc.1, by simp [selected_field, hmh, hc.2]⟩
            simpa [entity_field, async_set_temperature, hmh] using
              patch_lookup body.zones entityId id f "targetTemperatureHeat" (.jint t) h3
          · by_cases hmc : resolved_mode body (aircon_key true entityId airconId) = .jstr "cool"
            · have h3 : ¬(id = entityId ∧ f = "targetTemperatureCool") := by
                intro hc
                exact h2 ⟨hc.1, by simp [selected_field, hmh, hmc, hc.2]⟩
              simpa [entity_field, async_set_temperature, hmh, hmc] using
                patch_lookup body.zones entityId id f "targetTemperatureCool" (.jint t) h3
            · simpa [entity_field, async_set_temperature, hmh, hmc] using
                rewrite_lookup body.zones entityId id f
  | false =>
      cases kind with
      | true => simp [entity_field, async_set_temperature]
      | false =>
          have h2 : ¬(id = entityId ∧ some f =
              selected_field (resolved_mode body (aircon_key false entityId airconId))) :=
            fun hc => h ⟨rfl, hc.1, hc.2⟩
          by_cases hmh : resolved_mode body (aircon_key false entityId airconId) = .jstr "heat"
          · have h3 : ¬(id = entityId ∧ f = "targetTemperatureHeat") := by
              intro hc
              exact h2 ⟨hc.1, by simp [selected_field, hmh, hc.2]⟩
            simpa [entity_field, async_set_temperature, hmh] using
              patch_lookup body.aircons entityId id f "targetTemperatureHeat" (.jint t) h3
          · by_cases hmc : resolved_mode body (aircon_key false entityId airconId) = .jstr "cool"
            · have h3 : ¬(id = entityId ∧ f = "targetTemperatureCool") := by
                intro hc
                exact h2 ⟨hc.1, by simp [selected_field, hmh, hmc, hc.2]⟩
              simpa [entity_field, async_set_temperature, hmh, hmc] using
                patch_lookup body.aircons entityId id f "targetTemperatureCool" (.jint t) h3
            · simpa [entity_field, async_set_temperature, hmh, hmc] using
                rewrite_lookup body.aircons entityId id f

/-- Witness for claim C10 at concrete inputs: on the sample snapshot in
heat mode, patching the zone temperature leaves the zone name, the cool
setpoint of the same zone, and the owning aircon untouched. -/
theorem set_temperature_frame_witness :
    entity_field (async_set_temperature sampleBody true "z1" "a1"
        (some 22)).body true "z1" "name" =
      entity_field sampleBody true "z1" "name" ∧
    entity_field (async_set_temperature sampleBody true "z1" "a1"
        (some 22)).body true "z1" "targetTemperatureCool" =
      entity_field sampleBody true "z1" "targetTemperatureCool" ∧
    entity_field (async_set_temperature sampleBody true "z1" "a1"
        (some 22)).body false "a1" "targetTemperatureHeat" =
      entity_field sampleBody false "a1" "targetTemperatureHeat" :=
  ⟨set_temperature_frame sampleBody true "z1" "a1" 22 true "z1" "name"
      (by decide),
   set_temperature_frame sampleBody true "z1" "a1" 22 true "z1"
      "targetTemperatureCool" (by decide),
   set_temperature_frame sampleBody true "z1" "a1" 22 false "a1"
      "targetTemperatureHeat" (by decide)⟩

end MyPlaceIQ
